import Mathlib

/-!
Shallow embedding of the GRS system-modernization dashboard (src/app.py).

The only parameterized logic in the repository is the ROI estimator
`calculate_costs_and_roi` (src/app.py lines 387-397); the rest of the file
is fixed inline datasets bound to UI widgets.  Both are embedded here:
Python ints and floats are modelled as `ℤ` and `ℚ` (the float literals
0.8 and 1.3 denote the rationals 4/5 and 13/10), and the `KeyError`
raised by the dictionary subscript on an unknown complexity tier is
modelled by an `Option` result.
-/

namespace GrsApp

/-- The complexity-factor dictionary of `calculate_costs_and_roi`
(src/app.py line 388): `{"Low": 0.8, "Medium": 1.0, "High": 1.3}`. -/
def complexity_factor : List (String × ℚ) :=
  [("Low", 4 / 5), ("Medium", 1), ("High", 13 / 10)]

/-- The ROI estimator (src/app.py lines 387-397).  A complexity tier that is
not a key of `complexity_factor` makes the Python dictionary subscript raise
`KeyError`; that failure is modelled as `none`.  The result tuple is
`(ms_stack_cost, power_apps_cost, ms_roi, pa_roi)`. -/
def calculate_costs_and_roi (users months : ℤ) (complexity : String)
    (roi_percentage : ℚ) : Option (ℚ × ℚ × ℚ × ℚ) :=
  match List.lookup complexity complexity_factor with
  | none => none
  | some factor =>
      let ms_stack_cost : ℚ := ((users : ℚ) * 100 * (months : ℚ) + 50000) * factor
      let power_apps_cost : ℚ := ((users : ℚ) * 40 * (months : ℚ) + 30000) * factor
      let ms_roi : ℚ := (ms_stack_cost * (1 + roi_percentage / 100)) - ms_stack_cost
      let pa_roi : ℚ := (power_apps_cost * (1 + roi_percentage / 100)) - power_apps_cost
      some (ms_stack_cost, power_apps_cost, ms_roi, pa_roi)

/-- Arithmetic expressions over the two variables of the roi lines
(the current cost value and the roi percentage), used to state which
formula the source text of lines 394-395 actually is. -/
inductive RExpr where
  | cost : RExpr
  | pct : RExpr
  | num : ℚ → RExpr
  | add : RExpr → RExpr → RExpr
  | sub : RExpr → RExpr → RExpr
  | mul : RExpr → RExpr → RExpr
  | div : RExpr → RExpr → RExpr
deriving DecidableEq

/-- Evaluation of an `RExpr` at a cost value `c` and a percentage `p`. -/
def RExpr.eval (c p : ℚ) : RExpr → ℚ
  | .cost => c
  | .pct => p
  | .num q => q
  | .add a b => a.eval c p + b.eval c p
  | .sub a b => a.eval c p - b.eval c p
  | .mul a b => a.eval c p * b.eval c p
  | .div a b => a.eval c p / b.eval c p

/-- The roi expression as written in the source (src/app.py lines 394-395):
`(cost * (1 + roi_percentage/100)) - cost`. -/
def roiExprCode : RExpr :=
  .sub (.mul .cost (.add (.num 1) (.div .pct (.num 100)))) .cost

/-- The simplified roi formula the spec claims the implementation uses:
`cost * (roi_percentage/100)`.  This one definition is written from the
spec's words, to be compared with `roiExprCode` transcribed from the
source. -/
def roiExprSpecSimplified : RExpr :=
  .mul .cost (.div .pct (.num 100))

/-- The `Factor` column of `comparison_data` (src/app.py lines 81-96). -/
def comparison_data_factor : List String :=
  ["Development Speed", "Scalability", "Initial Cost", "Ongoing Cost",
   "Customizability", "Maintenance Effort", "Time-to-Market",
   "Security Features", "Integration Capability", "Learning Curve"]

/-- The `Microsoft Stack` scores of `comparison_data` (src/app.py line 94). -/
def comparison_data_ms : List ℤ := [7, 6, 8, 7, 9, 6, 7, 8, 9, 8]

/-- The `Azure Power Apps` scores of `comparison_data` (src/app.py line 95). -/
def comparison_data_pa : List ℤ := [9, 9, 6, 7, 7, 8, 9, 9, 8, 6]

/-- The column labels of `df_comparison`, i.e. the keys of the
`comparison_data` dictionary in source order. -/
def df_comparison_columns : List String :=
  ["Factor", "Microsoft Stack", "Azure Power Apps"]

/-- The field rows of `df_comparison.to_csv(index=False)` (src/app.py
line 474): a header row holding the column labels, then one row per factor
with its two scores rendered as plain decimal numerals; `index=False` means
no extra index column is prepended. -/
def df_comparison_csv_rows : List (List String) :=
  df_comparison_columns ::
    List.zipWith (fun name s => [name, toString s.1, toString s.2])
      comparison_data_factor (List.zip comparison_data_ms comparison_data_pa)

/-- The `Phase` column of `timeline_data` (src/app.py lines 101-109). -/
def timeline_data_phase : List String :=
  ["Environment Setup", "Base Implementation", "Core Features",
   "Integration", "Testing", "Deployment"]

/-- The `Microsoft Stack` durations of `timeline_data` (src/app.py line 110). -/
def timeline_data_ms : List ℤ := [30, 45, 60, 45, 30, 15]

/-- The `Azure Power Apps` durations of `timeline_data` (src/app.py line 111). -/
def timeline_data_pa : List ℤ := [15, 30, 45, 30, 30, 15]

/-- The `Risk Level` column of `timeline_data` (src/app.py line 112). -/
def timeline_data_risk : List String :=
  ["Low", "Medium", "High", "High", "Medium", "Low"]

/-- The `Category` column of `cost_breakdown` (src/app.py lines 118-125). -/
def cost_breakdown_category : List String :=
  ["Licensing", "Infrastructure", "Development", "Training", "Maintenance"]

/-- The `Microsoft Stack` amounts of `cost_breakdown` (src/app.py line 126). -/
def cost_breakdown_ms : List ℤ := [50000, 30000, 80000, 20000, 25000]

/-- The `Azure Power Apps` amounts of `cost_breakdown` (src/app.py line 127). -/
def cost_breakdown_pa : List ℤ := [70000, 15000, 60000, 30000, 15000]

/-- The `Feature` column of `features` (src/app.py lines 305-317). -/
def features_feature : List String :=
  ["Built-in Security", "Compliance Tools", "Mobile Support",
   "Custom Development", "Third-party Integration", "Automated Testing",
   "Version Control", "Deployment Automation", "Performance Monitoring",
   "Disaster Recovery"]

/-- The `Microsoft Stack` support symbols of `features` (src/app.py line 318). -/
def features_ms : List String :=
  ["✅", "✅", "⚠️", "✅", "✅", "✅", "✅", "✅", "✅", "✅"]

/-- The `Azure Power Apps` support symbols of `features` (src/app.py line 319). -/
def features_pa : List String :=
  ["✅", "✅", "✅", "⚠️", "✅", "✅", "✅", "✅", "✅", "✅"]

/-- Characterization of the dictionary lookup on an arbitrary tier string. -/
lemma lookup_complexity (t : String) :
    List.lookup t complexity_factor =
      if t = "Low" then some ((4 : ℚ) / 5)
      else if t = "Medium" then some 1
      else if t = "High" then some ((13 : ℚ) / 10)
      else none := by
  by_cases h1 : t = "Low"
  · subst h1; rfl
  by_cases h2 : t = "Medium"
  · subst h2; simp [h1]; rfl
  by_cases h3 : t = "High"
  · subst h3; simp [h1, h2]; rfl
  have e1 : (t == "Low") = false := beq_eq_false_iff_ne.mpr h1
  have e2 : (t == "Medium") = false := beq_eq_false_iff_ne.mpr h2
  have e3 : (t == "High") = false := beq_eq_false_iff_ne.mpr h3
  simp [complexity_factor, List.lookup, e1, e2, e3, h1, h2, h3]

/-- Unfolding of the estimator when the tier is a dictionary key. -/
lemma calculate_of_lookup (u m : ℤ) (p f : ℚ) (t : String)
    (hf : List.lookup t complexity_factor = some f) :
    calculate_costs_and_roi u m t p =
      some (((u : ℚ) * 100 * (m : ℚ) + 50000) * f,
            ((u : ℚ) * 40 * (m : ℚ) + 30000) * f,
            ((u : ℚ) * 100 * (m : ℚ) + 50000) * f * (1 + p / 100) -
              ((u : ℚ) * 100 * (m : ℚ) + 50000) * f,
            ((u : ℚ) * 40 * (m : ℚ) + 30000) * f * (1 + p / 100) -
              ((u : ℚ) * 40 * (m : ℚ) + 30000) * f) := by
  unfold calculate_costs_and_roi
  rw [hf]

/-- Unfolding of the estimator when the tier is not a dictionary key. -/
lemma calculate_none_of_lookup (u m : ℤ) (p : ℚ) (t : String)
    (hf : List.lookup t complexity_factor = none) :
    calculate_costs_and_roi u m t p = none := by
  unfold calculate_costs_and_roi
  rw [hf]

/-- Every successful estimator call arises from some factor in the
dictionary, and its output tuple is determined by that factor. -/
lemma calculate_some_elim (u m : ℤ) (p : ℚ) (t : String)
    (out : ℚ × ℚ × ℚ × ℚ)
    (h : calculate_costs_and_roi u m t p = some out) :
    ∃ f : ℚ, List.lookup t complexity_factor = some f ∧
      out = (((u : ℚ) * 100 * (m : ℚ) + 50000) * f,
             ((u : ℚ) * 40 * (m : ℚ) + 30000) * f,
             ((u : ℚ) * 100 * (m : ℚ) + 50000) * f * (1 + p / 100) -
               ((u : ℚ) * 100 * (m : ℚ) + 50000) * f,
             ((u : ℚ) * 40 * (m : ℚ) + 30000) * f * (1 + p / 100) -
               ((u : ℚ) * 40 * (m : ℚ) + 30000) * f) := by
  cases hf : List.lookup t complexity_factor with
  | none =>
      rw [calculate_none_of_lookup u m p t hf] at h
      exact absurd h (by simp)
  | some f =>
      rw [calculate_of_lookup u m p f t hf] at h
      exact ⟨f, rfl, (Option.some.inj h).symm⟩

/-- Every factor in the dictionary is positive. -/
lemma factor_pos (t : String) (f : ℚ)
    (hf : List.lookup t complexity_factor = some f) : 0 < f := by
  rw [lookup_complexity t] at hf
  split_ifs at hf <;> (cases Option.some.inj hf; norm_num)

/-- Claim C1: for every complexity tier among Low, Medium, High, with
complexity factors 0.8, 1.0 and 1.3 respectively, the estimator succeeds and
returns costA = (userCount * 100 * durationMonths + 50000) * factor and
costB = (userCount * 40 * durationMonths + 30000) * factor. -/
theorem cost_formula (u m : ℤ) (p : ℚ) (t : String) (f : ℚ)
    (h : (t = "Low" ∧ f = 4 / 5) ∨ (t = "Medium" ∧ f = 1) ∨
         (t = "High" ∧ f = 13 / 10)) :
    ∃ out : ℚ × ℚ × ℚ × ℚ,
      calculate_costs_and_roi u m t p = some out ∧
      out.1 = ((u : ℚ) * 100 * (m : ℚ) + 50000) * f ∧
      out.2.1 = ((u : ℚ) * 40 * (m : ℚ) + 30000) * f := by
  have hf : List.lookup t complexity_factor = some f := by
    rcases h with ⟨ht, hv⟩ | ⟨ht, hv⟩ | ⟨ht, hv⟩ <;> subst ht <;> subst hv <;> rfl
  exact ⟨_, calculate_of_lookup u m p f t hf, rfl, rfl⟩

/-- Concrete instance of `cost_formula` at the UI defaults
(50 users, 12 months, Medium tier). -/
theorem cost_formula_witness :
    ∃ out : ℚ × ℚ × ℚ × ℚ,
      calculate_costs_and_roi 50 12 "Medium" 100 = some out ∧
      out.1 = (((50 : ℤ) : ℚ) * 100 * ((12 : ℤ) : ℚ) + 50000) * 1 ∧
      out.2.1 = (((50 : ℤ) : ℚ) * 40 * ((12 : ℤ) : ℚ) + 30000) * 1 :=
  cost_formula 50 12 100 "Medium" 1 (Or.inr (Or.inl ⟨rfl, rfl⟩))

/-- Claim C2, counterexample: the roi expression written in the source,
`(cost * (1 + roi_percentage/100)) - cost`, is not the simplified formula
`cost * (roi_percentage/100)`: the implementation uses exactly the alternate
path the claim excludes. -/
theorem roi_expression_not_simplified :
    roiExprCode ≠ roiExprSpecSimplified := by
  decide

/-- Claim C2 (amended): the roi outputs equal cost * targetRoiPercent/100
exactly in the rational semantics, but they are computed by the alternate
expression `(cost * (1 + p/100)) - cost` of the source, whose evaluation
agrees with the simplified formula at every cost and percentage. -/
theorem roi_values_equal_cost_times_percent (u m : ℤ) (p : ℚ) (t : String)
    (out : ℚ × ℚ × ℚ × ℚ)
    (h : calculate_costs_and_roi u m t p = some out) :
    out.2.2.1 = RExpr.eval out.1 p roiExprCode ∧
    out.2.2.2 = RExpr.eval out.2.1 p roiExprCode ∧
    out.2.2.1 = out.1 * (p / 100) ∧
    out.2.2.2 = out.2.1 * (p / 100) ∧
    (∀ c : ℚ,
      RExpr.eval c p roiExprCode = RExpr.eval c p roiExprSpecSimplified) := by
  obtain ⟨f, hf, ho⟩ := calculate_some_elim u m p t out h
  subst ho
  refine ⟨rfl, rfl, by ring, by ring, fun c => ?_⟩
  simp only [RExpr.eval, roiExprCode, roiExprSpecSimplified]
  ring

/-- Concrete instance of `roi_values_equal_cost_times_percent` at the UI
defaults: costs 110000 and 54000, both rois equal to the costs at 100
percent. -/
theorem roi_values_equal_cost_times_percent_witness :
    (110000 : ℚ) = RExpr.eval 110000 100 roiExprCode ∧
    (54000 : ℚ) = RExpr.eval 54000 100 roiExprCode ∧
    (110000 : ℚ) = 110000 * (100 / 100) ∧
    (54000 : ℚ) = 54000 * (100 / 100) ∧
    (∀ c : ℚ,
      RExpr.eval c 100 roiExprCode = RExpr.eval c 100 roiExprSpecSimplified) :=
  roi_values_equal_cost_times_percent 50 12 100 "Medium"
    (110000, 54000, 110000, 54000)
    (by rw [calculate_of_lookup 50 12 100 1 "Medium" (by rfl)]; norm_num)

/-- Claim C3, counterexample: userCount = 0 is not rejected: the estimator
has no input validation and returns the ordinary tuple (40000, 24000, 0, 0)
rather than failing with InvalidInput. -/
theorem zero_users_accepted :
    calculate_costs_and_roi 0 6 "Low" 0 = some (40000, 24000, 0, 0) ∧
    calculate_costs_and_roi 0 6 "Low" 0 ≠ none := by
  constructor
  · rw [calculate_of_lookup 0 6 0 (4 / 5) "Low" (by rfl)]
    norm_num
  · rw [calculate_of_lookup 0 6 0 (4 / 5) "Low" (by rfl)]
    simp

/-- Claim C3 (amended): the estimator itself validates nothing about
userCount, durationMonths or targetRoiPercent; it fails exactly when the
complexityTier is outside {Low, Medium, High}, and that failure is the
dictionary subscript KeyError, not a typed InvalidInput.  In particular the
tier "Extreme" fails. -/
theorem failure_iff_unknown_tier (u m : ℤ) (p : ℚ) (t : String) :
    (calculate_costs_and_roi u m t p = none ↔
      ¬(t = "Low" ∨ t = "Medium" ∨ t = "High")) ∧
    calculate_costs_and_roi 50 12 "Extreme" 100 = none := by
  constructor
  · by_cases h1 : t = "Low"
    · subst h1
      rw [calculate_of_lookup u m p (4 / 5) "Low" (by rfl)]
      simp
    by_cases h2 : t = "Medium"
    · subst h2
      rw [calculate_of_lookup u m p 1 "Medium" (by rfl)]
      simp
    by_cases h3 : t = "High"
    · subst h3
      rw [calculate_of_lookup u m p (13 / 10) "High" (by rfl)]
      simp
    · have hf : List.lookup t complexity_factor = none := by
        rw [lookup_complexity t]
        simp [h1, h2, h3]
      rw [calculate_none_of_lookup u m p t hf]
      simp [h1, h2, h3]
  · exact calculate_none_of_lookup 50 12 100 "Extreme" (by rfl)

/-- Claim C4, counterexample: at userCount=10, durationMonths=6, tier Low,
0 percent, costA is not the claimed 46400: (10*100*6 + 50000) * 0.8 =
56000 * 0.8 = 44800. -/
theorem boundary_low_costA_not_46400 :
    calculate_costs_and_roi 10 6 "Low" 0 ≠ some (46400, 25920, 0, 0) := by
  rw [calculate_of_lookup 10 6 0 (4 / 5) "Low" (by rfl)]
  norm_num

/-- Claim C4 (amended): the two boundary evaluations, with the first costA
corrected to 44800: at (10, 6, Low, 0) the result is (44800, 25920, 0, 0);
at (1000, 36, High, 200) it is (4745000, 1911000, 9490000, 3822000). -/
theorem boundary_values :
    calculate_costs_and_roi 10 6 "Low" 0 = some (44800, 25920, 0, 0) ∧
    calculate_costs_and_roi 1000 36 "High" 200 =
      some (4745000, 1911000, 9490000, 3822000) := by
  constructor
  · rw [calculate_of_lookup 10 6 0 (4 / 5) "Low" (by rfl)]
    norm_num
  · rw [calculate_of_lookup 1000 36 200 (13 / 10) "High" (by rfl)]
    norm_num

/-- Claim C5: for valid inputs both costs are non-negative, and each is
monotone non-decreasing in userCount and in durationMonths with the other
parameters held fixed (stated jointly: raising either input or both never
decreases either cost). -/
theorem costs_nonneg_monotone (u u' m m' : ℤ) (p : ℚ) (t : String)
    (out out' : ℚ × ℚ × ℚ × ℚ)
    (hu : 0 < u) (hm : 0 < m) (huu : u ≤ u') (hmm : m ≤ m')
    (h : calculate_costs_and_roi u m t p = some out)
    (h' : calculate_costs_and_roi u' m' t p = some out') :
    0 ≤ out.1 ∧ 0 ≤ out.2.1 ∧ out.1 ≤ out'.1 ∧ out.2.1 ≤ out'.2.1 := by
  obtain ⟨f, hf, ho⟩ := calculate_some_elim u m p t out h
  obtain ⟨f', hf', ho'⟩ := calculate_some_elim u' m' p t out' h'
  rw [hf] at hf'
  cases Option.some.inj hf'
  subst ho
  subst ho'
  have hfpos : 0 < f := factor_pos t f hf
  have huq : (0 : ℚ) < (u : ℚ) := by exact_mod_cast hu
  have hmq : (0 : ℚ) < (m : ℚ) := by exact_mod_cast hm
  have huu2 : ((u : ℚ)) ≤ (u' : ℚ) := by exact_mod_cast huu
  have hmm2 : ((m : ℚ)) ≤ (m' : ℚ) := by exact_mod_cast hmm
  have hmul : (u : ℚ) * (m : ℚ) ≤ (u' : ℚ) * (m' : ℚ) :=
    mul_le_mul huu2 hmm2 hmq.le (le_trans huq.le huu2)
  have hmulf : (u : ℚ) * (m : ℚ) * f ≤ (u' : ℚ) * (m' : ℚ) * f :=
    mul_le_mul_of_nonneg_right hmul hfpos.le
  refine ⟨?_, ?_, ?_, ?_⟩ <;> dsimp only <;>
    nlinarith [mul_pos huq hmq, hfpos, hmul, hmulf]

/-- Concrete instance of `costs_nonneg_monotone`: growing from (10 users,
6 months) to (20 users, 12 months) at the Low tier. -/
theorem costs_nonneg_monotone_witness :
    (0 : ℚ) ≤ 44800 ∧ (0 : ℚ) ≤ 25920 ∧
    (44800 : ℚ) ≤ 59200 ∧ (25920 : ℚ) ≤ 31680 :=
  costs_nonneg_monotone 10 20 6 12 0 "Low" (44800, 25920, 0, 0)
    (59200, 31680, 0, 0) (by norm_num) (by norm_num) (by norm_num)
    (by norm_num)
    (by rw [calculate_of_lookup 10 6 0 (4 / 5) "Low" (by rfl)]; norm_num)
    (by rw [calculate_of_lookup 20 12 0 (4 / 5) "Low" (by rfl)]; norm_num)

/-- Claim C6: for fixed positive userCount and durationMonths and any
percentage, the tiers strictly order both costs:
cost(High) > cost(Medium) > cost(Low), for costA and for costB. -/
theorem tier_strictly_orders_costs (u m : ℤ) (p : ℚ)
    (oL oM oH : ℚ × ℚ × ℚ × ℚ)
    (hu : 0 < u) (hm : 0 < m)
    (hL : calculate_costs_and_roi u m "Low" p = some oL)
    (hM : calculate_costs_and_roi u m "Medium" p = some oM)
    (hH : calculate_costs_and_roi u m "High" p = some oH) :
    (oM.1 < oH.1 ∧ oL.1 < oM.1) ∧ (oM.2.1 < oH.2.1 ∧ oL.2.1 < oM.2.1) := by
  rw [calculate_of_lookup u m p (4 / 5) "Low" (by rfl)] at hL
  rw [calculate_of_lookup u m p 1 "Medium" (by rfl)] at hM
  rw [calculate_of_lookup u m p (13 / 10) "High" (by rfl)] at hH
  cases Option.some.inj hL
  cases Option.some.inj hM
  cases Option.some.inj hH
  have huq : (0 : ℚ) < (u : ℚ) := by exact_mod_cast hu
  have hmq : (0 : ℚ) < (m : ℚ) := by exact_mod_cast hm
  have hbase : (0 : ℚ) < (u : ℚ) * (m : ℚ) := mul_pos huq hmq
  refine ⟨⟨?_, ?_⟩, ?_, ?_⟩ <;> dsimp only <;> nlinarith [hbase]

/-- Concrete instance of `tier_strictly_orders_costs` at 10 users and
6 months. -/
theorem tier_strictly_orders_costs_witness :
    ((56000 : ℚ) < 72800 ∧ (44800 : ℚ) < 56000) ∧
    ((32400 : ℚ) < 42120 ∧ (25920 : ℚ) < 32400) :=
  tier_strictly_orders_costs 10 6 0 (44800, 25920, 0, 0)
    (56000, 32400, 0, 0) (72800, 42120, 0, 0) (by norm_num) (by norm_num)
    (by rw [calculate_of_lookup 10 6 0 (4 / 5) "Low" (by rfl)]; norm_num)
    (by rw [calculate_of_lookup 10 6 0 1 "Medium" (by rfl)]; norm_num)
    (by rw [calculate_of_lookup 10 6 0 (13 / 10) "High" (by rfl)]; norm_num)

/-- Claim C7: the estimator is deterministic and stateless: its embedding is
a function of the four inputs alone (the source reads no enclosing state and
writes none), so two calls with identical input yield identical outputs. -/
theorem estimator_deterministic (u m : ℤ) (t : String) (p : ℚ)
    (o1 o2 : Option (ℚ × ℚ × ℚ × ℚ))
    (h1 : calculate_costs_and_roi u m t p = o1)
    (h2 : calculate_costs_and_roi u m t p = o2) :
    o1 = o2 := by
  rw [← h1, ← h2]

/-- Concrete instance of `estimator_deterministic` at the UI defaults. -/
theorem estimator_deterministic_witness :
    calculate_costs_and_roi 50 12 "Medium" 100 =
      some (110000, 54000, 110000, 54000) :=
  estimator_deterministic 50 12 "Medium" 100
    (calculate_costs_and_roi 50 12 "Medium" 100)
    (some (110000, 54000, 110000, 54000)) rfl
    (by rw [calculate_of_lookup 50 12 100 1 "Medium" (by rfl)]; norm_num)

/-- Claim C8, counterexample: the header of the exported comparison CSV is
not `Factor, MicrosoftStack, AzurePowerApps`: the DataFrame column labels
contain spaces (`Microsoft Stack`, `Azure Power Apps`). -/
theorem csv_header_not_schema_names :
    df_comparison_csv_rows.head? ≠
      some ["Factor", "MicrosoftStack", "AzurePowerApps"] := by
  decide

/-- Claim C8 (amended): the export has a header row whose fields are exactly
`Factor`, `Microsoft Stack`, `Azure Power Apps` (the space-free names of the
claim differ from the code's column labels), no index column (every row has
exactly the three schema fields), and 10 data rows whose first fields are
the factor names in the enumerated order. -/
theorem csv_export_shape :
    df_comparison_csv_rows.head? =
      some ["Factor", "Microsoft Stack", "Azure Power Apps"] ∧
    df_comparison_csv_rows.length = 11 ∧
    (∀ r ∈ df_comparison_csv_rows, r.length = 3) ∧
    df_comparison_csv_rows.tail.map List.head? =
      comparison_data_factor.map some := by
  refine ⟨rfl, rfl, by decide, rfl⟩

/-- Claim C9: the fixed datasets have the declared shapes: 10 factor rows
with integer scores in [0, 10] for both stacks, 6 timeline phases with risk
levels among Low/Medium/High, 5 cost categories with non-negative amounts,
and 10 feature rows.  All of them are load-time constants of the embedding
(plain definitions), so no operation creates, mutates or destroys a row. -/
theorem dataset_shape_invariants :
    comparison_data_factor.length = 10 ∧
    comparison_data_ms.length = 10 ∧ comparison_data_pa.length = 10 ∧
    (∀ s ∈ comparison_data_ms, 0 ≤ s ∧ s ≤ 10) ∧
    (∀ s ∈ comparison_data_pa, 0 ≤ s ∧ s ≤ 10) ∧
    timeline_data_phase.length = 6 ∧ timeline_data_ms.length = 6 ∧
    timeline_data_pa.length = 6 ∧ timeline_data_risk.length = 6 ∧
    (∀ r ∈ timeline_data_risk, r = "Low" ∨ r = "Medium" ∨ r = "High") ∧
    cost_breakdown_category.length = 5 ∧
    cost_breakdown_ms.length = 5 ∧ cost_breakdown_pa.length = 5 ∧
    (∀ c ∈ cost_breakdown_ms, 0 ≤ c) ∧ (∀ c ∈ cost_breakdown_pa, 0 ≤ c) ∧
    features_feature.length = 10 ∧
    features_ms.length = 10 ∧ features_pa.length = 10 := by
  decide

/-- Claim C10: with positive userCount and durationMonths and a recognized
tier, the low-code cost is strictly below the traditional cost
(costB < costA), and with a non-negative percentage roiB ≤ roiA. -/
theorem lowcode_cost_below_traditional (u m : ℤ) (p : ℚ) (t : String)
    (out : ℚ × ℚ × ℚ × ℚ)
    (hu : 0 < u) (hm : 0 < m) (hp : 0 ≤ p)
    (h : calculate_costs_and_roi u m t p = some out) :
    out.2.1 < out.1 ∧ out.2.2.2 ≤ out.2.2.1 := by
  obtain ⟨f, hf, ho⟩ := calculate_some_elim u m p t out h
  subst ho
  have hfpos : 0 < f := factor_pos t f hf
  have huq : (0 : ℚ) < (u : ℚ) := by exact_mod_cast hu
  have hmq : (0 : ℚ) < (m : ℚ) := by exact_mod_cast hm
  have hbase : (0 : ℚ) < (u : ℚ) * (m : ℚ) := mul_pos huq hmq
  have hcost : ((u : ℚ) * 40 * (m : ℚ) + 30000) * f <
      ((u : ℚ) * 100 * (m : ℚ) + 50000) * f := by
    apply mul_lt_mul_of_pos_right _ hfpos
    nlinarith [hbase]
  have hkey : 0 ≤ (((u : ℚ) * 100 * (m : ℚ) + 50000) * f -
      ((u : ℚ) * 40 * (m : ℚ) + 30000) * f) * (p / 100) :=
    mul_nonneg (by linarith [hcost]) (by positivity)
  refine ⟨?_, ?_⟩ <;> dsimp only
  · exact hcost
  · nlinarith [hkey]

/-- Concrete instance of `lowcode_cost_below_traditional` at 10 users,
6 months, Low tier, 100 percent. -/
theorem lowcode_cost_below_traditional_witness :
    (25920 : ℚ) < 44800 ∧ (25920 : ℚ) ≤ 44800 :=
  lowcode_cost_below_traditional 10 6 100 "Low"
    (44800, 25920, 44800, 25920) (by norm_num) (by norm_num) (by norm_num)
    (by rw [calculate_of_lookup 10 6 100 (4 / 5) "Low" (by rfl)]; norm_num)

end GrsApp
